import Mathlib

/-!
Verification of the Vexidus SDK address codec and transaction bundle builder.

The definitions below are a shallow embedding of the Rust sources
`sdk/src/address_utils.rs`, `sdk/src/bundle.rs`, `sdk/src/wallet.rs` and
`sdk/src/keypair.rs`.  Strings are embedded as `List Char`, byte sequences as
`List Nat` ranging over 0..255, and machine integers as `Nat` (no arithmetic
in the embedded fragment can overflow a u64/u128 for the inputs considered,
and the only arithmetic performed on gas values is `max`).  Fallible Rust
functions returning `Result` are embedded as `Except`.

The external crate `vexidus_types` (the base58 human-facing address codec
`VexidusAddress`, the Blake3 bundle hash and the Ed25519 primitive) is not
part of the embedded sources; following the spec it is treated as an abstract
contract and passed in as a function parameter wherever it is used.
-/

/-- Hexadecimal value of one character, as in the Rust hex crate:
digits, lowercase and uppercase letters accepted, anything else rejected. -/
def hexVal (c : Char) : Option Nat :=
  if '0' ≤ c ∧ c ≤ '9' then some (c.toNat - '0'.toNat)
  else if 'a' ≤ c ∧ c ≤ 'f' then some (c.toNat - 'a'.toNat + 10)
  else if 'A' ≤ c ∧ c ≤ 'F' then some (c.toNat - 'A'.toNat + 10)
  else none

/-- Embedding of hex decoding as in the Rust hex crate: consumes characters
two at a time; fails on an odd-length string or a non-hex character. -/
def hexDecode : List Char → Option (List Nat)
  | [] => some []
  | [_] => none
  | c1 :: c2 :: rest =>
    match hexVal c1, hexVal c2, hexDecode rest with
    | some h, some l, some tail => some ((16 * h + l) :: tail)
    | _, _, _ => none

/-- Lowercase hex digit for a value below 16, as produced by hex encoding. -/
def hexDigit (n : Nat) : Char :=
  if n < 10 then Char.ofNat (48 + n) else Char.ofNat (87 + n)

/-- Embedding of lowercase hex encoding of a byte list (the Rust hex crate
encoder), two characters per byte. -/
def hexEncode : List Nat → List Char
  | [] => []
  | b :: rest => hexDigit (b / 16) :: hexDigit (b % 16) :: hexEncode rest

/-- Boolean test that the second list is an initial segment of the first,
embedding Rust `str::starts_with`. -/
def listStartsWith : List Char → List Char → Bool
  | _, [] => true
  | [], _ :: _ => false
  | c :: cs, p :: ps => if c = p then listStartsWith cs ps else false

/-- ASCII lowercase of a character, embedding `u8::to_ascii_lowercase`. -/
def toLowerChar (c : Char) : Char :=
  if 'A' ≤ c ∧ c ≤ 'Z' then Char.ofNat (c.toNat + 32) else c

/-- Embedding of Rust `str::eq_ignore_ascii_case`. -/
def eqIgnoreAsciiCase (a b : List Char) : Bool :=
  a.map toLowerChar == b.map toLowerChar

/-- ASCII whitespace test used to embed Rust `str::trim` (the embedded
inputs are ASCII, so the ASCII whitespace set is adequate). -/
def isWS (c : Char) : Bool :=
  c = ' ' || c = '\n' || c = '\t' || c = '\r'

/-- Embedding of Rust `str::trim` on ASCII strings. -/
def asciiTrim (s : List Char) : List Char :=
  ((s.dropWhile isWS).reverse.dropWhile isWS).reverse

/-- The 32-byte internal address value (`vexidus_types::Address`). -/
structure Address where
  bytes : List Nat
deriving DecidableEq

/-- The all-zero address, `Address::ZERO`, denoting the native token. -/
def Address.ZERO : Address := ⟨List.replicate 32 0⟩

/-- Error enum of `address_utils.rs`.  `InvalidFormat` and `Checksum` carry
their message string; `HexDecode` embeds the wrapped `hex::FromHexError`. -/
inductive AddressError where
  | InvalidFormat (msg : List Char)
  | HexDecode
  | Checksum (msg : List Char)
deriving DecidableEq

/-- Modelled from the spec: the external address-codec contract of
`vexidus_types::VexidusAddress` (base58 parse of the tagged human-facing
string, then checksum-verified payload extraction).  The source of that crate
is not among the embedded files, so its outcome on a given string is an
abstract parameter: either the parse step fails, or the checksum fails, or a
payload byte list is produced. -/
inductive ExternDecode where
  | parseErr (msg : List Char)
  | checksumErr (msg : List Char)
  | payload (bytes : List Nat)

/-- Decimal digits of a number, used to embed the Rust format strings that
interpolate a length. -/
def natDecimal (n : Nat) : List Char := Nat.toDigits 10 n

/-- The message of the wrong-length hex error in `parse_address`. -/
def gotMsg (n : Nat) : List Char :=
  String.toList "Expected 20 or 32 bytes, got " ++ natDecimal n

/-- The message of the unrecognized-tag error in `parse_address`. -/
def badTagMsg (input : List Char) : List Char :=
  String.toList "Address must start with Vx0, Vx1, or 0x: " ++ input

/-- The current human-facing format tag. -/
def tagVx0 : List Char := String.toList "Vx0"

/-- The legacy human-facing format tag, accepted on parse only. -/
def tagVx1 : List Char := String.toList "Vx1"

/-- The lowercase hex tag. -/
def tag0xLower : List Char := String.toList "0x"

/-- The uppercase hex tag. -/
def tag0xUpper : List Char := String.toList "0X"

/-- Embedding of `address_utils::vx0_to_bytes`: delegate parse and checksum
verification to the external codec, then place the payload right-aligned in
a 32-byte zero buffer.  Note the source guards the copy with
`payload.len() <= 32` and otherwise leaves the zero buffer untouched,
returning it as a success. -/
def vx0_to_bytes (ext : List Char → ExternDecode) (vx0 : List Char) :
    Except AddressError (List Nat) :=
  match ext vx0 with
  | .parseErr m => .error (.InvalidFormat m)
  | .checksumErr m => .error (.Checksum m)
  | .payload p =>
    .ok (if p.length ≤ 32 then List.replicate (32 - p.length) 0 ++ p
         else List.replicate 32 0)

/-- Embedding of `address_utils::parse_address`: dispatch on the leading tag;
Vx0/Vx1 goes through the human-facing decoder, 0x/0X through hex decoding of
the remainder with right-alignment of a 20-byte result, and anything else is
an invalid-format error. -/
def parse_address (ext : List Char → ExternDecode) (input : List Char) :
    Except AddressError Address :=
  if listStartsWith input tagVx0 || listStartsWith input tagVx1 then
    (vx0_to_bytes ext input).map Address.mk
  else if listStartsWith input tag0xLower || listStartsWith input tag0xUpper then
    match hexDecode (input.drop 2) with
    | none => .error AddressError.HexDecode
    | some bs =>
      if bs.length = 20 then .ok ⟨List.replicate 12 0 ++ bs⟩
      else if bs.length = 32 then .ok ⟨bs⟩
      else .error (.InvalidFormat (gotMsg bs.length))
  else .error (.InvalidFormat (badTagMsg input))

/-- The native token symbol. -/
def vxsSym : List Char := String.toList "VXS"

/-- Embedding of `bundle::parse_token`: the native symbol, compared ASCII
case-insensitively, maps to the all-zero address; anything else is parsed as
an address. -/
def parse_token (ext : List Char → ExternDecode) (token : List Char) :
    Except AddressError Address :=
  if eqIgnoreAsciiCase token vxsSym then .ok Address.ZERO
  else parse_address ext token

/-- The operation variants of `vexidus_types::Operation` used by the builder
(`KeyType` and `KeyRole` are external enums, embedded as `Nat` tags; byte
vectors and hashes as `List Nat`). -/
inductive Operation where
  | Transfer (dest token : Address) (amount : Nat)
  | AddKey (pubkey : List Nat) (key_type role : Nat)
  | RemoveKey (pubkey_hash : List Nat)
  | RotateKey (old_pubkey_hash new_pubkey : List Nat) (new_key_type : Nat)
  | Stake (amount : Nat) (validator_pubkey : List Nat)
  | Unstake (amount : Nat)
  | ClaimUnstake
  | Delegate (validator : Address) (amount : Nat)
  | Undelegate (validator : Address) (amount : Nat)
  | ClaimRewards
  | SetCommission (rate : Nat)
  | Unjail
  | SetValidatorMetadata (name description website avatar_url : List Char)
  | CreatePool (token_a token_b : Address) (amount_a amount_b lp_lock_duration : Nat)
  | AddLiquidity (token_a token_b : Address) (amount_a amount_b min_lp_tokens : Nat)
  | RemoveLiquidity (token_a token_b : Address) (lp_amount min_amount_a min_amount_b : Nat)
  | Swap (from_token to_token : Address) (amount_in min_amount_out : Nat)
deriving DecidableEq

/-- The fields of `vexidus_types::TransactionBundle` set by the builder.
The signature is a byte list, empty while unsigned; timestamps are seconds
as `Nat`. -/
structure TransactionBundle where
  user_account : Address
  operations : List Operation
  max_gas : Nat
  max_priority_fee : Nat
  valid_until : Nat
  nonce : Nat
  signature : List Nat
  expiry_timestamp : Option Nat
deriving DecidableEq

/-- Error enum of `bundle.rs`.  `NoOperations` is declared in the source
with message "No operations specified". -/
inductive BundleError where
  | Address (e : AddressError)
  | NoOperations
deriving DecidableEq

/-- The accumulating state of `bundle::BundleBuilder`. -/
structure BundleBuilder where
  sender : Address
  operations : List Operation
  max_gas : Nat
  max_priority_fee : Nat
  valid_until : Nat
  nonce : Nat
deriving DecidableEq

/-- Embedding of `BundleBuilder::new`: parse the sender, then the documented
defaults.  `Timestamp::now()` is an ambient clock reading, passed in as the
parameter `now`. -/
def BundleBuilder.new (ext : List Char → ExternDecode) (now : Nat)
    (sender : List Char) : Except BundleError BundleBuilder :=
  match parse_address ext sender with
  | .error e => .error (.Address e)
  | .ok addr =>
    .ok { sender := addr, operations := [], max_gas := 100000,
          max_priority_fee := 0, valid_until := now + 3600, nonce := 0 }

/-- Embedding of `BundleBuilder::transfer`: parse the destination, then the
token, then append the operation. -/
def BundleBuilder.transfer (ext : List Char → ExternDecode) (b : BundleBuilder)
    (dest token : List Char) (amount : Nat) : Except BundleError BundleBuilder :=
  match parse_address ext dest with
  | .error e => .error (.Address e)
  | .ok to_addr =>
    match parse_token ext token with
    | .error e => .error (.Address e)
    | .ok token_addr =>
      .ok { b with operations :=
              b.operations ++ [Operation.Transfer to_addr token_addr amount] }

/-- Embedding of `BundleBuilder::delegate`. -/
def BundleBuilder.delegate (ext : List Char → ExternDecode) (b : BundleBuilder)
    (validator : List Char) (amount : Nat) : Except BundleError BundleBuilder :=
  match parse_address ext validator with
  | .error e => .error (.Address e)
  | .ok validator_addr =>
    .ok { b with operations :=
            b.operations ++ [Operation.Delegate validator_addr amount] }

/-- Embedding of `BundleBuilder::create_pool`: parse both tokens, append the
operation, then raise the gas value to at least 300000. -/
def BundleBuilder.create_pool (ext : List Char → ExternDecode)
    (b : BundleBuilder) (token_a token_b : List Char)
    (amount_a amount_b lp_lock_duration : Nat) :
    Except BundleError BundleBuilder :=
  match parse_token ext token_a with
  | .error e => .error (.Address e)
  | .ok addr_a =>
    match parse_token ext token_b with
    | .error e => .error (.Address e)
    | .ok addr_b =>
      .ok { b with
            operations := b.operations ++
              [Operation.CreatePool addr_a addr_b amount_a amount_b lp_lock_duration],
            max_gas := Nat.max b.max_gas 300000 }

/-- Embedding of `BundleBuilder::add_liquidity` with its 150000 gas floor. -/
def BundleBuilder.add_liquidity (ext : List Char → ExternDecode)
    (b : BundleBuilder) (token_a token_b : List Char)
    (amount_a amount_b min_lp_tokens : Nat) :
    Except BundleError BundleBuilder :=
  match parse_token ext token_a with
  | .error e => .error (.Address e)
  | .ok addr_a =>
    match parse_token ext token_b with
    | .error e => .error (.Address e)
    | .ok addr_b =>
      .ok { b with
            operations := b.operations ++
              [Operation.AddLiquidity addr_a addr_b amount_a amount_b min_lp_tokens],
            max_gas := Nat.max b.max_gas 150000 }

/-- Embedding of `BundleBuilder::remove_liquidity` with its 150000 gas floor. -/
def BundleBuilder.remove_liquidity (ext : List Char → ExternDecode)
    (b : BundleBuilder) (token_a token_b : List Char)
    (lp_amount min_amount_a min_amount_b : Nat) :
    Except BundleError BundleBuilder :=
  match parse_token ext token_a with
  | .error e => .error (.Address e)
  | .ok addr_a =>
    match parse_token ext token_b with
    | .error e => .error (.Address e)
    | .ok addr_b =>
      .ok { b with
            operations := b.operations ++
              [Operation.RemoveLiquidity addr_a addr_b lp_amount min_amount_a min_amount_b],
            max_gas := Nat.max b.max_gas 150000 }

/-- Embedding of the `BundleBuilder::max_gas` setter (named apart from the
field of the same name): an unconditional overwrite. -/
def BundleBuilder.set_max_gas (b : BundleBuilder) (g : Nat) : BundleBuilder :=
  { b with max_gas := g }

/-- Embedding of `BundleBuilder::build`: assembles the bundle from the
accumulated state with an empty signature.  The source performs no check on
the operation list and has no error path. -/
def BundleBuilder.build (b : BundleBuilder) : TransactionBundle :=
  { user_account := b.sender, operations := b.operations,
    max_gas := b.max_gas, max_priority_fee := b.max_priority_fee,
    valid_until := b.valid_until, nonce := b.nonce,
    signature := [], expiry_timestamp := none }

/-- An Ed25519 wallet keypair (`wallet::WalletKeypair`), owning its 32-byte
secret.  The public-key derivation lives in the external ed25519 crate and is
not needed by any embedded operation. -/
structure WalletKeypair where
  secret : List Nat
deriving DecidableEq

/-- Error enum of `wallet.rs`. -/
inductive WalletError where
  | Io
  | Format (msg : List Char)
  | Hex
deriving DecidableEq

/-- The message of the wrong-length secret error. -/
def secretLenMsg (n : Nat) : List Char :=
  String.toList "Expected 32 bytes, got " ++ natDecimal n

/-- Embedding of `WalletKeypair::from_secret_hex`: trim, hex-decode (a hex
failure surfaces as the hex error), then require exactly 32 bytes. -/
def WalletKeypair.from_secret_hex (s : List Char) :
    Except WalletError WalletKeypair :=
  match hexDecode (asciiTrim s) with
  | none => .error .Hex
  | some bs =>
    if bs.length ≠ 32 then .error (.Format (secretLenMsg bs.length))
    else .ok ⟨bs⟩

/-- Modelled from the spec: Ed25519 signing lives in the external
ed25519-dalek crate; it is abstracted as a function `ed` from secret and
message to signature bytes.  `WalletKeypair::sign` applies it to the owned
secret. -/
def WalletKeypair.sign (ed : List Nat → List Nat → List Nat)
    (kp : WalletKeypair) (message : List Nat) : List Nat :=
  ed kp.secret message

/-- Embedding of `WalletKeypair::sign_bundle`: compute the canonical bundle
hash and sign exactly those hash bytes.  The Blake3 bundle hash of
`vexidus_types::TransactionBundle::hash` is external and abstracted as the
parameter `hashFn`. -/
def WalletKeypair.sign_bundle (ed : List Nat → List Nat → List Nat)
    (hashFn : TransactionBundle → List Nat) (kp : WalletKeypair)
    (bundle : TransactionBundle) : List Nat :=
  WalletKeypair.sign ed kp (hashFn bundle)

/-- Embedding of `BundleBuilder::sign`: build the bundle, then set its
signature to the wallet signature of that built bundle. -/
def BundleBuilder.sign (ed : List Nat → List Nat → List Nat)
    (hashFn : TransactionBundle → List Nat) (b : BundleBuilder)
    (wallet : WalletKeypair) : TransactionBundle :=
  let bundle := b.build
  { bundle with signature := WalletKeypair.sign_bundle ed hashFn wallet bundle }

/-- An Ed25519 validator keypair (`keypair::ValidatorKeypair`). -/
structure ValidatorKeypair where
  secret : List Nat
deriving DecidableEq

/-- Error enum of `keypair.rs`. -/
inductive KeypairError where
  | Io
  | Format (msg : List Char)
  | Hex
deriving DecidableEq

/-- Embedding of the decoding performed by `ValidatorKeypair::load` on the
file contents it has read (the file read itself is I/O, so the contents are
passed as the argument): trim, hex-decode, then require exactly 32 bytes. -/
def ValidatorKeypair.load_contents (contents : List Char) :
    Except KeypairError ValidatorKeypair :=
  match hexDecode (asciiTrim contents) with
  | none => .error .Hex
  | some bs =>
    if bs.length ≠ 32 then .error (.Format (secretLenMsg bs.length))
    else .ok ⟨bs⟩

/-- A fixed external codec for concrete instances: every human-facing string
is a parse failure (no human-facing strings are exercised through it). -/
def extNone : List Char → ExternDecode := fun _ => ExternDecode.parseErr []

/-- A fixed external codec whose checksum-verified payload is 33 bytes. -/
def extOversize : List Char → ExternDecode :=
  fun _ => ExternDecode.payload (List.replicate 33 1)

/-- A fixed external codec whose checksum-verified payload is 20 bytes. -/
def extPay20 : List Char → ExternDecode :=
  fun _ => ExternDecode.payload (List.replicate 20 7)

/-- A fixed Ed25519 stand-in for concrete instances. -/
def edZero : List Nat → List Nat → List Nat := fun _ _ => []

/-- A fixed bundle-hash stand-in for concrete instances. -/
def hashZero : TransactionBundle → List Nat := fun _ => []

/-- A concrete 32-byte hex sender string: 0x followed by 64 zero digits. -/
def senderHex : List Char := '0' :: 'x' :: List.replicate 64 '0'

/-- The builder state produced by `new` on `senderHex` with clock reading 0. -/
def b0 : BundleBuilder :=
  { sender := Address.ZERO, operations := [], max_gas := 100000,
    max_priority_fee := 0, valid_until := 3600, nonce := 0 }

/-- A builder state holding one previously accumulated operation. -/
def bPrior : BundleBuilder := { b0 with operations := [Operation.ClaimRewards] }

/-- The pool-creation operation appended by the concrete calls below. -/
def cpOp : Operation := Operation.CreatePool Address.ZERO Address.ZERO 1 1 0

/-- The liquidity-add operation appended by the concrete calls below. -/
def alOp : Operation := Operation.AddLiquidity Address.ZERO Address.ZERO 1 1 0

/-- The liquidity-remove operation appended by the concrete calls below. -/
def rmOp : Operation := Operation.RemoveLiquidity Address.ZERO Address.ZERO 1 1 0

/-- Result of one `create_pool` call on `b0`. -/
def bPool0 : BundleBuilder := { b0 with operations := [cpOp], max_gas := 300000 }

/-- Result of a second `create_pool` call on `bPool0`. -/
def bPool1 : BundleBuilder :=
  { b0 with operations := [cpOp, cpOp], max_gas := 300000 }

/-- A builder whose caller has set a gas value above the pool floor. -/
def bHigh : BundleBuilder := { b0 with max_gas := 500000 }

/-- Result of `create_pool` on `bHigh`: the higher value is untouched. -/
def bHighPool : BundleBuilder :=
  { bHigh with operations := [cpOp], max_gas := 500000 }

/-- Result of `add_liquidity` on `b0`. -/
def bAddLiq0 : BundleBuilder := { b0 with operations := [alOp], max_gas := 150000 }

/-- Result of `remove_liquidity` on `b0`. -/
def bRemLiq0 : BundleBuilder := { b0 with operations := [rmOp], max_gas := 150000 }

/-- The hex value of each lowercase hex digit is the encoded value. -/
theorem hexVal_hexDigit : ∀ n, n < 16 → hexVal (hexDigit n) = some n := by decide

/-- The zero character decodes to the zero nibble. -/
theorem hexValZeroChar : hexVal '0' = some 0 := rfl

/-- Hex decoding inverts hex encoding on byte lists. -/
theorem hexDecode_hexEncode : ∀ bs : List Nat, (∀ b ∈ bs, b < 256) →
    hexDecode (hexEncode bs) = some bs := by
  intro bs
  induction bs with
  | nil => intro _; rfl
  | cons b rest ih =>
    intro h
    have hb : b < 256 := h b (List.mem_cons_self b rest)
    have hdiv : b / 16 < 16 := by omega
    have hmod : b % 16 < 16 := by omega
    have hrest : ∀ x ∈ rest, x < 256 := fun x hx => h x (List.mem_cons_of_mem b hx)
    simp only [hexEncode, hexDecode, hexVal_hexDigit _ hdiv, hexVal_hexDigit _ hmod,
      ih hrest]
    have hbeq : 16 * (b / 16) + b % 16 = b := by omega
    rw [hbeq]

/-- Prepending 2k zero hex characters prepends k zero bytes to the decoding. -/
theorem hexDecode_replicate_zeros : ∀ (k : Nat) (l : List Char) (t : List Nat),
    hexDecode l = some t →
    hexDecode (List.replicate (2 * k) '0' ++ l) = some (List.replicate k 0 ++ t) := by
  intro k
  induction k with
  | zero => intro l t h; simpa using h
  | succ k ih =>
    intro l t h
    have e1 : 2 * (k + 1) = (2 * k + 1) + 1 := by omega
    rw [e1, List.replicate_succ, List.replicate_succ, List.cons_append, List.cons_append,
        List.replicate_succ, List.cons_append]
    simp only [hexDecode, hexValZeroChar, ih l t h]

/-- A successful `create_pool` sets the gas value to the max of the previous
value and 300000. -/
theorem create_pool_ok_gas (ext : List Char → ExternDecode) (b : BundleBuilder)
    (ta tb : List Char) (aa ab ld : Nat) (b1 : BundleBuilder)
    (h : BundleBuilder.create_pool ext b ta tb aa ab ld = .ok b1) :
    b1.max_gas = Nat.max b.max_gas 300000 := by
  cases hpa : parse_token ext ta with
  | error e => simp [BundleBuilder.create_pool, hpa] at h
  | ok aA =>
    cases hpb : parse_token ext tb with
    | error e => simp [BundleBuilder.create_pool, hpa, hpb] at h
    | ok aB =>
      simp [BundleBuilder.create_pool, hpa, hpb] at h
      subst h
      rfl

/-- A successful `add_liquidity` sets the gas value to the max of the
previous value and 150000. -/
theorem add_liquidity_ok_gas (ext : List Char → ExternDecode) (b : BundleBuilder)
    (ta tb : List Char) (aa ab mlt : Nat) (b1 : BundleBuilder)
    (h : BundleBuilder.add_liquidity ext b ta tb aa ab mlt = .ok b1) :
    b1.max_gas = Nat.max b.max_gas 150000 := by
  cases hpa : parse_token ext ta with
  | error e => simp [BundleBuilder.add_liquidity, hpa] at h
  | ok aA =>
    cases hpb : parse_token ext tb with
    | error e => simp [BundleBuilder.add_liquidity, hpa, hpb] at h
    | ok aB =>
      simp [BundleBuilder.add_liquidity, hpa, hpb] at h
      subst h
      rfl

/-- A successful `remove_liquidity` sets the gas value to the max of the
previous value and 150000. -/
theorem remove_liquidity_ok_gas (ext : List Char → ExternDecode) (b : BundleBuilder)
    (ta tb : List Char) (la ma mb : Nat) (b1 : BundleBuilder)
    (h : BundleBuilder.remove_liquidity ext b ta tb la ma mb = .ok b1) :
    b1.max_gas = Nat.max b.max_gas 150000 := by
  cases hpa : parse_token ext ta with
  | error e => simp [BundleBuilder.remove_liquidity, hpa] at h
  | ok aA =>
    cases hpb : parse_token ext tb with
    | error e => simp [BundleBuilder.remove_liquidity, hpa, hpb] at h
    | ok aB =>
      simp [BundleBuilder.remove_liquidity, hpa, hpb] at h
      subst h
      rfl

/-- C1: the claim states that build() and sign() on a builder with an empty
operation list fail with the NoOperations error and never produce a bundle.
The source build() returns a TransactionBundle directly, with no error path,
and the NoOperations variant is never raised anywhere: on a freshly
constructed builder with zero operations, both build() and sign() produce a
bundle whose operation list is empty. -/
theorem build_and_sign_accept_empty_operations :
    (BundleBuilder.new extNone 0 senderHex).map
        (fun b => ((b.build).operations, (b.build).signature)) = .ok ([], []) ∧
    (BundleBuilder.new extNone 0 senderHex).map
        (fun b => (BundleBuilder.sign edZero hashZero b ⟨[]⟩).operations) =
      .ok [] := ⟨rfl, rfl⟩

/-- C2: the claim states that a payload longer than 32 bytes makes
vx0_to_bytes return an error.  The source guards the copy with
payload.len() &le; 32 but has no else branch: a 33-byte payload yields
Ok with the untouched all-zero buffer (which parse_address then turns into
Address::ZERO), while a payload of at most 32 bytes is right-aligned as the
claim says. -/
theorem vx0_oversize_payload_silently_zero :
    vx0_to_bytes extOversize tagVx0 = .ok (List.replicate 32 0) ∧
    parse_address extOversize tagVx0 = .ok Address.ZERO ∧
    vx0_to_bytes extPay20 tagVx0 =
      .ok (List.replicate 12 0 ++ List.replicate 20 7) := ⟨rfl, rfl, rfl⟩

/-- C3: parse_address dispatches by prefix: Vx0/Vx1 takes the human-facing
path; 0x/0X takes the hex path, where a decoded length of 20 is right-aligned
into a zero-filled 32-byte value, 32 is used verbatim, and any other decoded
length is an InvalidFormat error carrying the observed length; any other
prefix is an InvalidFormat error. -/
theorem parse_address_dispatch (ext : List Char → ExternDecode) (input : List Char) :
    ((listStartsWith input tagVx0 || listStartsWith input tagVx1) = true →
      parse_address ext input = (vx0_to_bytes ext input).map Address.mk) ∧
    ((listStartsWith input tagVx0 || listStartsWith input tagVx1) = false →
      (listStartsWith input tag0xLower || listStartsWith input tag0xUpper) = true →
      ∀ bs, hexDecode (input.drop 2) = some bs →
        (bs.length = 20 → parse_address ext input = .ok ⟨List.replicate 12 0 ++ bs⟩) ∧
        (bs.length = 32 → parse_address ext input = .ok ⟨bs⟩) ∧
        (bs.length ≠ 20 → bs.length ≠ 32 →
          parse_address ext input = .error (.InvalidFormat (gotMsg bs.length)))) ∧
    ((listStartsWith input tagVx0 || listStartsWith input tagVx1) = false →
      (listStartsWith input tag0xLower || listStartsWith input tag0xUpper) = false →
      parse_address ext input = .error (.InvalidFormat (badTagMsg input))) := by
  refine ⟨?_, ?_, ?_⟩
  · intro h1
    simp [parse_address, h1]
  · intro h1 h2 bs hbs
    refine ⟨?_, ?_, ?_⟩
    · intro hl; simp [parse_address, h1, h2, hbs, hl]
    · intro hl
      have hne : ¬ (bs.length = 20) := by omega
      simp [parse_address, h1, h2, hbs, hl, hne]
    · intro hn20 hn32; simp [parse_address, h1, h2, hbs, hn20, hn32]
  · intro h1 h2
    simp [parse_address, h1, h2]

/-- Witness for C3: concrete strings exercising all five dispatch outcomes
of parse_address. -/
theorem parse_address_dispatch_witness :
    parse_address extNone (String.toList "0x1234") =
      .error (.InvalidFormat (gotMsg 2)) ∧
    parse_address extNone (String.toList "zz") =
      .error (.InvalidFormat (badTagMsg (String.toList "zz"))) ∧
    parse_address extNone ('0' :: 'x' :: List.replicate 40 '0') = .ok Address.ZERO ∧
    parse_address extNone senderHex = .ok Address.ZERO ∧
    parse_address extPay20 tagVx0 =
      (vx0_to_bytes extPay20 tagVx0).map Address.mk := by
  refine ⟨?_, ?_, ?_, ?_, ?_⟩
  · have h := (parse_address_dispatch extNone
      (String.toList "0x1234")).2.1 rfl rfl [18, 52] rfl
    exact h.2.2 (by decide) (by decide)
  · exact (parse_address_dispatch extNone (String.toList "zz")).2.2 rfl rfl
  · have h := (parse_address_dispatch extNone
      ('0' :: 'x' :: List.replicate 40 '0')).2.1 rfl rfl (List.replicate 20 0) rfl
    exact h.1 (by decide)
  · have h := (parse_address_dispatch extNone senderHex).2.1 rfl rfl
      (List.replicate 32 0) rfl
    exact h.2.1 (by decide)
  · exact (parse_address_dispatch extPay20 tagVx0).1 rfl

/-- C4: pool creation sets the gas value to the max of the current value and
300000, liquidity add/remove to the max of the current value and 150000;
these calls never lower the current value, a second pool creation never
lowers a previously-raised value, and pool creation after a higher
caller-set value leaves that value unchanged. -/
theorem gas_floor_escalation (ext : List Char → ExternDecode) (b : BundleBuilder)
    (ta tb : List Char) (aa ab ld mlt la ma mb : Nat) :
    (∀ b1, BundleBuilder.create_pool ext b ta tb aa ab ld = .ok b1 →
      b1.max_gas = Nat.max b.max_gas 300000 ∧ b.max_gas ≤ b1.max_gas ∧
      (300000 ≤ b.max_gas → b1.max_gas = b.max_gas) ∧
      ∀ b2, BundleBuilder.create_pool ext b1 ta tb aa ab ld = .ok b2 →
        b1.max_gas ≤ b2.max_gas ∧ b2.max_gas = b1.max_gas) ∧
    (∀ b1, BundleBuilder.add_liquidity ext b ta tb aa ab mlt = .ok b1 →
      b1.max_gas = Nat.max b.max_gas 150000 ∧ b.max_gas ≤ b1.max_gas ∧
      (150000 ≤ b.max_gas → b1.max_gas = b.max_gas)) ∧
    (∀ b1, BundleBuilder.remove_liquidity ext b ta tb la ma mb = .ok b1 →
      b1.max_gas = Nat.max b.max_gas 150000 ∧ b.max_gas ≤ b1.max_gas ∧
      (150000 ≤ b.max_gas → b1.max_gas = b.max_gas)) := by
  refine ⟨?_, ?_, ?_⟩
  · intro b1 h1
    have e1 := create_pool_ok_gas ext b ta tb aa ab ld b1 h1
    refine ⟨e1, ?_, ?_, ?_⟩
    · rw [e1]; simp only [Nat.max_def]; split_ifs <;> omega
    · intro hge; rw [e1]; simp only [Nat.max_def]; split_ifs <;> omega
    · intro b2 h2
      have e2 := create_pool_ok_gas ext b1 ta tb aa ab ld b2 h2
      constructor
      · rw [e2]; simp only [Nat.max_def]; split_ifs <;> omega
      · rw [e2, e1]; simp only [Nat.max_def]; split_ifs <;> omega
  · intro b1 h1
    have e1 := add_liquidity_ok_gas ext b ta tb aa ab mlt b1 h1
    refine ⟨e1, ?_, ?_⟩
    · rw [e1]; simp only [Nat.max_def]; split_ifs <;> omega
    · intro hge; rw [e1]; simp only [Nat.max_def]; split_ifs <;> omega
  · intro b1 h1
    have e1 := remove_liquidity_ok_gas ext b ta tb la ma mb b1 h1
    refine ⟨e1, ?_, ?_⟩
    · rw [e1]; simp only [Nat.max_def]; split_ifs <;> omega
    · intro hge; rw [e1]; simp only [Nat.max_def]; split_ifs <;> omega

/-- Witness for C4: concrete pool-creation and liquidity calls on a default
builder, a twice-called builder, and a builder with a higher caller-set gas
value. -/
theorem gas_floor_escalation_witness :
    (bPool0.max_gas = Nat.max b0.max_gas 300000 ∧ b0.max_gas ≤ bPool0.max_gas) ∧
    bPool1.max_gas = bPool0.max_gas ∧
    bHighPool.max_gas = bHigh.max_gas ∧
    bAddLiq0.max_gas = Nat.max b0.max_gas 150000 ∧
    bRemLiq0.max_gas = Nat.max b0.max_gas 150000 := by
  have h1 : BundleBuilder.create_pool extNone b0 vxsSym vxsSym 1 1 0 = .ok bPool0 := rfl
  have h2 : BundleBuilder.create_pool extNone bPool0 vxsSym vxsSym 1 1 0 = .ok bPool1 := rfl
  have h3 : BundleBuilder.create_pool extNone bHigh vxsSym vxsSym 1 1 0 = .ok bHighPool := rfl
  have h4 : BundleBuilder.add_liquidity extNone b0 vxsSym vxsSym 1 1 0 = .ok bAddLiq0 := rfl
  have h5 : BundleBuilder.remove_liquidity extNone b0 vxsSym vxsSym 1 1 0 = .ok bRemLiq0 := rfl
  have m := (gas_floor_escalation extNone b0 vxsSym vxsSym 1 1 0 0 0 0 0).1 bPool0 h1
  have mh := (gas_floor_escalation extNone bHigh vxsSym vxsSym 1 1 0 0 0 0 0).1 bHighPool h3
  have ma := (gas_floor_escalation extNone b0 vxsSym vxsSym 1 1 0 0 0 0 0).2.1 bAddLiq0 h4
  have mr := (gas_floor_escalation extNone b0 vxsSym vxsSym 1 1 0 0 1 1 0).2.2 bRemLiq0 h5
  exact ⟨⟨m.1, m.2.1⟩, (m.2.2.2 bPool1 h2).2, mh.2.2.1 (by decide), ma.1, mr.1⟩

/-- C5: sign_bundle signs exactly the canonical bundle hash bytes, and the
builder sign equals build followed by sign_bundle on the built bundle, so
the signature is a function of the final assembled content only. -/
theorem sign_binds_final_content (ed : List Nat → List Nat → List Nat)
    (hashFn : TransactionBundle → List Nat) (b : BundleBuilder)
    (w : WalletKeypair) :
    BundleBuilder.sign ed hashFn b w =
      { BundleBuilder.build b with
        signature := WalletKeypair.sign_bundle ed hashFn w (BundleBuilder.build b) } ∧
    WalletKeypair.sign_bundle ed hashFn w (BundleBuilder.build b) =
      WalletKeypair.sign ed w (hashFn (BundleBuilder.build b)) := ⟨rfl, rfl⟩

/-- C6: an operation-adding call with a malformed address or token argument
fails with an error at that call; on success the call only appends the new
operation, leaving all previously accumulated operations and every other
field of the builder intact. -/
theorem operation_call_failure_is_local (ext : List Char → ExternDecode)
    (b : BundleBuilder) (dest token validator : List Char) (amount : Nat) :
    (∀ e, parse_address ext dest = .error e →
      BundleBuilder.transfer ext b dest token amount = .error (.Address e)) ∧
    (∀ a e, parse_address ext dest = .ok a → parse_token ext token = .error e →
      BundleBuilder.transfer ext b dest token amount = .error (.Address e)) ∧
    (∀ a t, parse_address ext dest = .ok a → parse_token ext token = .ok t →
      BundleBuilder.transfer ext b dest token amount =
        .ok { b with operations := b.operations ++ [Operation.Transfer a t amount] }) ∧
    (∀ e, parse_address ext validator = .error e →
      BundleBuilder.delegate ext b validator amount = .error (.Address e)) ∧
    (∀ a, parse_address ext validator = .ok a →
      BundleBuilder.delegate ext b validator amount =
        .ok { b with operations := b.operations ++ [Operation.Delegate a amount] }) := by
  refine ⟨?_, ?_, ?_, ?_, ?_⟩
  · intro e h; simp [BundleBuilder.transfer, h]
  · intro a e h1 h2; simp [BundleBuilder.transfer, h1, h2]
  · intro a t h1 h2; simp [BundleBuilder.transfer, h1, h2]
  · intro e h; simp [BundleBuilder.delegate, h]
  · intro a h; simp [BundleBuilder.delegate, h]

/-- Witness for C6: on a builder holding one prior operation, a malformed
destination or token fails that call with the wrapped address error, and a
well-formed call appends exactly one operation after the prior one. -/
theorem operation_call_failure_is_local_witness :
    BundleBuilder.transfer extNone bPrior (String.toList "zz") vxsSym 5 =
      .error (.Address (.InvalidFormat (badTagMsg (String.toList "zz")))) ∧
    BundleBuilder.transfer extNone bPrior senderHex (String.toList "qq") 5 =
      .error (.Address (.InvalidFormat (badTagMsg (String.toList "qq")))) ∧
    BundleBuilder.transfer extNone bPrior senderHex vxsSym 5 =
      .ok { bPrior with operations :=
              bPrior.operations ++ [Operation.Transfer Address.ZERO Address.ZERO 5] } ∧
    BundleBuilder.delegate extNone bPrior (String.toList "zz") 5 =
      .error (.Address (.InvalidFormat (badTagMsg (String.toList "zz")))) ∧
    BundleBuilder.delegate extNone bPrior senderHex 5 =
      .ok { bPrior with operations :=
              bPrior.operations ++ [Operation.Delegate Address.ZERO 5] } := by
  refine ⟨?_, ?_, ?_, ?_, ?_⟩
  · exact (operation_call_failure_is_local extNone bPrior (String.toList "zz")
      vxsSym [] 5).1 _ rfl
  · exact (operation_call_failure_is_local extNone bPrior senderHex
      (String.toList "qq") [] 5).2.1 Address.ZERO _ rfl rfl
  · exact (operation_call_failure_is_local extNone bPrior senderHex
      vxsSym [] 5).2.2.1 Address.ZERO Address.ZERO rfl rfl
  · exact (operation_call_failure_is_local extNone bPrior []
      [] (String.toList "zz") 5).2.2.2.1 _ rfl
  · exact (operation_call_failure_is_local extNone bPrior []
      [] senderHex 5).2.2.2.2 Address.ZERO rfl

/-- C7: a freshly constructed builder on a valid sender has gas 100000,
priority fee 0, validity now + 3600, nonce 0 and an empty operation list;
building it yields an empty signature; and a token matching the native
symbol case-insensitively maps to the all-zero address. -/
theorem builder_defaults (ext : List Char → ExternDecode) (now : Nat)
    (s t : List Char) (addr : Address) :
    (parse_address ext s = .ok addr →
      BundleBuilder.new ext now s =
        .ok { sender := addr, operations := [], max_gas := 100000,
              max_priority_fee := 0, valid_until := now + 3600, nonce := 0 } ∧
      ∀ b, BundleBuilder.new ext now s = .ok b →
        (b.build).signature = [] ∧ (b.build).operations = [] ∧
        (b.build).max_gas = 100000 ∧ (b.build).max_priority_fee = 0 ∧
        (b.build).valid_until = now + 3600 ∧ (b.build).nonce = 0) ∧
    (eqIgnoreAsciiCase t vxsSym = true → parse_token ext t = .ok Address.ZERO) := by
  constructor
  · intro h
    have hnew : BundleBuilder.new ext now s =
        .ok { sender := addr, operations := [], max_gas := 100000,
              max_priority_fee := 0, valid_until := now + 3600, nonce := 0 } := by
      simp [BundleBuilder.new, h]
    refine ⟨hnew, ?_⟩
    intro b hb
    rw [hnew] at hb
    injection hb with hb
    subst hb
    exact ⟨rfl, rfl, rfl, rfl, rfl, rfl⟩
  · intro h
    simp [parse_token, h]

/-- Witness for C7: the concrete hex sender and a mixed-case native symbol. -/
theorem builder_defaults_witness :
    BundleBuilder.new extNone 7 senderHex =
      .ok { sender := Address.ZERO, operations := [], max_gas := 100000,
            max_priority_fee := 0, valid_until := 7 + 3600, nonce := 0 } ∧
    parse_token extNone (String.toList "vXs") = .ok Address.ZERO := by
  constructor
  · exact ((builder_defaults extNone 7 senderHex (String.toList "vXs")
      Address.ZERO).1 rfl).1
  · exact (builder_defaults extNone 7 senderHex (String.toList "vXs")
      Address.ZERO).2 rfl

/-- C8: loading a secret from a hex string succeeds exactly when the decoded
length is 32 bytes; any other decoded length is a Format error carrying the
observed length, and malformed hex is the hex-decode error.  Both the wallet
keypair loader and the validator keypair loader behave this way. -/
theorem secret_key_length_check (s : List Char) :
    (hexDecode (asciiTrim s) = none →
      WalletKeypair.from_secret_hex s = .error .Hex ∧
      ValidatorKeypair.load_contents s = .error .Hex) ∧
    ∀ bs, hexDecode (asciiTrim s) = some bs →
      (bs.length = 32 →
        WalletKeypair.from_secret_hex s = .ok ⟨bs⟩ ∧
        ValidatorKeypair.load_contents s = .ok ⟨bs⟩) ∧
      (bs.length ≠ 32 →
        WalletKeypair.from_secret_hex s = .error (.Format (secretLenMsg bs.length)) ∧
        ValidatorKeypair.load_contents s = .error (.Format (secretLenMsg bs.length))) := by
  constructor
  · intro h
    constructor <;>
      simp [WalletKeypair.from_secret_hex, ValidatorKeypair.load_contents, h]
  · intro bs h
    constructor
    · intro h32
      constructor <;>
        simp [WalletKeypair.from_secret_hex, ValidatorKeypair.load_contents, h, h32]
    · intro h32
      constructor <;>
        simp [WalletKeypair.from_secret_hex, ValidatorKeypair.load_contents, h, h32]

/-- Witness for C8: a 64-character secret loads, a 4-character hex string is
a Format error carrying length 2, malformed hex is the hex error. -/
theorem secret_key_length_check_witness :
    WalletKeypair.from_secret_hex (List.replicate 64 '0') =
      .ok ⟨List.replicate 32 0⟩ ∧
    WalletKeypair.from_secret_hex (String.toList "abcd") =
      .error (.Format (secretLenMsg 2)) ∧
    ValidatorKeypair.load_contents (String.toList "zz") = .error .Hex := by
  refine ⟨?_, ?_, ?_⟩
  · exact (((secret_key_length_check (List.replicate 64 '0')).2
      (List.replicate 32 0) rfl).1 rfl).1
  · exact (((secret_key_length_check (String.toList "abcd")).2
      [171, 205] rfl).2 (by decide)).1
  · exact ((secret_key_length_check (String.toList "zz")).1 rfl).2

/-- C9: for a 20-byte payload, parse_address on the 40-character hex form and
on the 64-character form obtained by prepending 24 zero hex characters yield
the same 32-byte address, whose leading 12 bytes are zero. -/
theorem right_alignment_equivalence (ext : List Char → ExternDecode)
    (bs : List Nat) (h20 : bs.length = 20) (hlt : ∀ b ∈ bs, b < 256) :
    parse_address ext ('0' :: 'x' :: hexEncode bs) =
      .ok ⟨List.replicate 12 0 ++ bs⟩ ∧
    parse_address ext ('0' :: 'x' :: (List.replicate 24 '0' ++ hexEncode bs)) =
      .ok ⟨List.replicate 12 0 ++ bs⟩ ∧
    (List.replicate 12 0 ++ bs).take 12 = List.replicate 12 0 := by
  have hrt := hexDecode_hexEncode bs hlt
  have hrep := hexDecode_replicate_zeros 12 (hexEncode bs) bs hrt
  norm_num at hrep
  have hlen : (List.replicate 12 (0 : Nat) ++ bs).length = 32 := by
    simp [List.length_append, h20]
  refine ⟨?_, ?_, ?_⟩
  · simp [parse_address, listStartsWith, tagVx0, tagVx1, tag0xLower, hrt, h20]
  · generalize hgen : List.replicate 24 '0' = zs at hrep
    simp [parse_address, listStartsWith, tagVx0, tagVx1, tag0xLower, hrep, hlen, h20]
  · simp [List.take_append_eq_append_take, List.take_replicate, h20]

/-- Witness for C9: the 20-byte payload of all-1 bytes. -/
theorem right_alignment_equivalence_witness :
    parse_address extNone ('0' :: 'x' :: hexEncode (List.replicate 20 1)) =
      .ok ⟨List.replicate 12 0 ++ List.replicate 20 1⟩ ∧
    parse_address extNone
        ('0' :: 'x' :: (List.replicate 24 '0' ++ hexEncode (List.replicate 20 1))) =
      .ok ⟨List.replicate 12 0 ++ List.replicate 20 1⟩ := by
  have h := right_alignment_equivalence extNone (List.replicate 20 1)
    (by decide) (by decide)
  exact ⟨h.1, h.2.1⟩

/-- C10: the max_gas setter unconditionally overwrites the gas value with the
given value, also after a gas floor was applied by create_pool, add_liquidity
or remove_liquidity, and build carries the overwritten value through: the
floor is enforced only at the operation-adding call. -/
theorem set_max_gas_unconditional_overwrite (ext : List Char → ExternDecode)
    (b : BundleBuilder) (g : Nat) (ta tb : List Char) (aa ab ld : Nat) :
    (b.set_max_gas g).max_gas = g ∧
    (b.set_max_gas g).operations = b.operations ∧
    (b.set_max_gas g).sender = b.sender ∧
    (b.set_max_gas g).max_priority_fee = b.max_priority_fee ∧
    (b.set_max_gas g).valid_until = b.valid_until ∧
    (b.set_max_gas g).nonce = b.nonce ∧
    ((b.set_max_gas g).build).max_gas = g ∧
    (∀ b1, BundleBuilder.create_pool ext b ta tb aa ab ld = .ok b1 →
      (b1.set_max_gas g).max_gas = g ∧ ((b1.set_max_gas g).build).max_gas = g) ∧
    (∀ b1, BundleBuilder.add_liquidity ext b ta tb aa ab ld = .ok b1 →
      (b1.set_max_gas g).max_gas = g) ∧
    (∀ b1, BundleBuilder.remove_liquidity ext b ta tb aa ab ld = .ok b1 →
      (b1.set_max_gas g).max_gas = g) :=
  ⟨rfl, rfl, rfl, rfl, rfl, rfl, rfl,
   fun _ _ => ⟨rfl, rfl⟩, fun _ _ => rfl, fun _ _ => rfl⟩

/-- Witness for C10: lowering the gas value to 10 after a concrete
create_pool call raised it to 300000. -/
theorem set_max_gas_unconditional_overwrite_witness :
    (bPool0.set_max_gas 10).max_gas = 10 ∧
    ((bPool0.set_max_gas 10).build).max_gas = 10 := by
  have h : BundleBuilder.create_pool extNone b0 vxsSym vxsSym 1 1 0 = .ok bPool0 := rfl
  exact (set_max_gas_unconditional_overwrite extNone b0 10 vxsSym vxsSym
    1 1 0).2.2.2.2.2.2.2.1 bPool0 h
